import Mathlib

/-!
Shallow embedding of the sandboxed code-execution service:
`src/runner/docker_runner.py` (the execution core) and `src/app.py`
(the HTTP shell helpers `clean_message` and the `/run` handler).

Python side effects and exceptions are made explicit:
* the environment-dependent outcomes of `shutil.which("docker")`, the
  staging writes, and `subprocess.run` are inputs (`Env`);
* a Python computation that may raise is a `PyResult`;
* the staging-directory lifecycle (`tempfile.TemporaryDirectory` used as a
  context manager, which removes the directory on every exit of the `with`
  block, including exceptional exits) is recorded in `Effects`.
Invocation-independent details such as the staged file's contents (the dedented code
written to `script.py`) never influence the returned value, so they are not
tracked beyond the lifecycle booleans.
-/

namespace SandboxAPI

/-- Outcome of a Python expression that may raise: either a value or a
raised exception carrying its description. -/
inductive PyResult (α : Type) where
  | ok (a : α)
  | exn (e : String)
deriving DecidableEq, Repr

/-- Outcome of the `subprocess.run` call on the docker command line:
it completed with captured streams and a return code, raised
`subprocess.TimeoutExpired`, or raised some other `Exception`. -/
inductive SubprocessOutcome where
  | completed (stdout stderr : String) (returncode : Int)
  | timedOut
  | raised (description : String)
deriving DecidableEq, Repr

/-- The environment-dependent facts one invocation of
`run_code_in_docker` observes: whether `shutil.which("docker")` finds the
binary, whether staging (the `open`/`write` of `script.py` inside the
freshly created temporary directory) raises an `OSError` (carried as its
description), and what the `subprocess.run` call does. -/
structure Env where
  dockerAvailable : Bool
  stagingExn : Option String
  outcome : SubprocessOutcome
deriving DecidableEq, Repr

/-- Observable staging/execution side effects of one invocation. -/
structure Effects where
  stagingCreated : Bool
  stagingRemoved : Bool
  executionAttempted : Bool
deriving DecidableEq, Repr

/-- Python whitespace for `str.strip()`: space, tab, newline, carriage
return, vertical tab, form feed. -/
def isPyWhitespace (c : Char) : Bool :=
  c = ' ' || c = '\t' || c = '\n' || c = '\r' || c = '\x0b' || c = '\x0c'

/-- Python `s.strip()`: drop leading and trailing whitespace. -/
def pyStrip (s : String) : String :=
  String.mk (((s.toList.dropWhile isPyWhitespace).reverse.dropWhile
      isPyWhitespace).reverse)

/-- Python `s.lower()` on the ASCII range: lower-case every character. -/
def pyLower (s : String) : String :=
  String.mk (s.toList.map Char.toLower)

/-- Does `pat` occur as a contiguous run starting at some suffix of `cs`? -/
def containsAux (pat : List Char) : List Char → Bool
  | [] => pat.isEmpty
  | c :: rest => pat.isPrefixOf (c :: rest) || containsAux pat rest

/-- Python `pat in s` on strings: substring containment. -/
def strContains (s pat : String) : Bool :=
  containsAux pat.toList s.toList

-- Module-level constants of src/runner/docker_runner.py.

def IMAGE_NAME : String := "python:3.11-slim"

def EXEC_TIMEOUT_SECONDS : Nat := 10

def MEMORY_LIMIT : String := "128m"

def NETWORK_MODE : String := "none"

/-- `_docker_available()` = `shutil.which("docker") is not None`; its value
is an environment fact. -/
def docker_available (env : Env) : Bool :=
  env.dockerAvailable

/-- `run_code_in_docker(code)` of src/runner/docker_runner.py.
Returns the value the Python function returns (or the exception that
escapes it) together with the staging side effects of the call.
The `with tempfile.TemporaryDirectory()` block removes the directory on
every exit path, so every branch entered after its creation records
`stagingRemoved := true`. -/
def run_code_in_docker (env : Env) (code : String) :
    PyResult (String × Int) × Effects :=
  -- code = textwrap.dedent(code): affects only the staged file contents,
  -- which the returned value never depends on.
  if docker_available env = false then
    (.ok ("Docker is not installed or not available in PATH.", -1),
     ⟨false, false, false⟩)
  else
    match env.stagingExn with
    | some e =>
        -- open/f.write raised outside the try block: the exception
        -- propagates; the with-block still removes the directory.
        (.exn e, ⟨true, true, false⟩)
    | none =>
        match env.outcome with
        | .timedOut =>
            (.ok ("Execution timed out after " ++
                    toString EXEC_TIMEOUT_SECONDS ++ " seconds.", -2),
             ⟨true, true, true⟩)
        | .raised e =>
            (.ok ("Internal error: " ++ e, -1), ⟨true, true, true⟩)
        | .completed stdout stderr returncode =>
            let combined := pyStrip (stdout ++ "\n" ++ stderr)
            if returncode ≠ 0 then
              let low := pyLower combined
              if strContains low "killed" ||
                  strContains low "out of memory" then
                (.ok ("Execution failed: container was killed due to excessive memory usage.",
                      returncode),
                 ⟨true, true, true⟩)
              else
                (.ok (combined, returncode), ⟨true, true, true⟩)
            else
              (.ok (pyStrip stdout, returncode), ⟨true, true, true⟩)

-- src/app.py: the HTTP shell.

/-- Maximum accepted code length (`MAX_CODE_SIZE` in src/app.py). -/
def MAX_CODE_SIZE : Nat := 5000

/-- Is `c` one of the line boundaries Python `str.splitlines` recognises
in the messages this service produces (newline, carriage return)? -/
def isLineBoundary (c : Char) : Bool :=
  c = '\n' || c = '\r'

/-- Collapse each two-character boundary `\r\n` into `\n`, so that the
splitting worker only has to look at one character at a time. -/
def normNewlines : List Char → List Char
  | [] => []
  | [c] => [c]
  | c :: c2 :: rest =>
      if c = '\r' ∧ c2 = '\n' then '\n' :: normNewlines rest
      else c :: normNewlines (c2 :: rest)

/-- Worker for `splitlines`: `acc` holds the current line, reversed. -/
def splitlinesAux : List Char → List Char → List String
  | [], acc => if acc.isEmpty then [] else [String.mk acc.reverse]
  | c :: rest, acc =>
      if isLineBoundary c then
        String.mk acc.reverse :: splitlinesAux rest []
      else
        splitlinesAux rest (c :: acc)

/-- Python `str.splitlines()`: split at line boundaries (`\n`, `\r\n`,
`\r`), the terminator of a final line being optional, and an empty string
yielding the empty list. -/
def splitlines (s : String) : List String :=
  splitlinesAux (normNewlines s.toList) []

/-- `clean_message(msg)` of src/app.py: when the message contains the
marker `"Traceback"`, keep only the last line (`msg.splitlines()[-1]`;
the list is nonempty there because `msg` contains the nonempty marker). -/
def clean_message (msg : String) : String :=
  if strContains msg "Traceback" then (splitlines msg).getLastD ""
  else msg

/-- JSON values, as delivered by `request.get_json`. -/
inductive JsonValue where
  | null
  | bool (b : Bool)
  | num (n : Int)
  | str (s : String)
  | arr (xs : List JsonValue)
  | obj (fields : List (String × JsonValue))

/-- Python truthiness of a JSON value (`not data` in the handler). -/
def pyFalsy : JsonValue → Bool
  | .null => true
  | .bool b => !b
  | .num n => n == 0
  | .str s => s.isEmpty
  | .arr xs => xs.isEmpty
  | .obj fs => fs.isEmpty

/-- Is this JSON value the given string? (Python `==` against a str.) -/
def isStrEq (key : String) : JsonValue → Bool
  | .str s => s == key
  | _ => false

/-- Python `key in data`: key membership for dicts, element membership
for lists, substring for strings; raises `TypeError` otherwise. -/
def pyContains (v : JsonValue) (key : String) : PyResult Bool :=
  match v with
  | .obj fs => .ok (fs.any fun p => p.1 == key)
  | .arr xs => .ok (xs.any (isStrEq key))
  | .str s => .ok (strContains s key)
  | _ => .exn "TypeError: argument is not iterable"

/-- Python `data[key]`: dict lookup, raising on anything else (string
keys are invalid indices for lists/strings/scalars). -/
def getItem (v : JsonValue) (key : String) : PyResult JsonValue :=
  match v with
  | .obj fs =>
      match fs.lookup key with
      | some x => .ok x
      | none => .exn "KeyError"
  | _ => .exn "TypeError: invalid index"

/-- Python `len(code)`: defined for sized values, raising `TypeError`
on numbers, booleans and `None`. -/
def pyLen : JsonValue → PyResult Nat
  | .str s => .ok s.length
  | .arr xs => .ok xs.length
  | .obj fs => .ok fs.length
  | _ => .exn "TypeError: object has no len()"

/-- The two response shapes the `/run` handler can produce: a 400
client error carrying an error message, or a 200 success carrying the
cleaned output and the exit code. -/
inductive RunResponse where
  | clientError (msg : String)
  | success (output : String) (exit_code : Int)
deriving DecidableEq, Repr

/-- The `/run` handler `run_code` of src/app.py, given the parsed JSON
body (`none` when parsing failed, since `get_json(silent=True)` returns
`None` then) and the environment of the docker invocation it makes. -/
def run_code (env : Env) (data : Option JsonValue) : PyResult RunResponse :=
  match data with
  | none => .ok (.clientError "Missing \x27code\x27 field")
  | some v =>
      if pyFalsy v then .ok (.clientError "Missing \x27code\x27 field")
      else
        match pyContains v "code" with
        | .exn e => .exn e
        | .ok mem =>
            if !mem then .ok (.clientError "Missing \x27code\x27 field")
            else
              match getItem v "code" with
              | .exn e => .exn e
              | .ok code =>
                  match pyLen code with
                  | .exn e => .exn e
                  | .ok l =>
                      if l > MAX_CODE_SIZE then
                        .ok (.clientError "Code too long (max 5000 characters)")
                      else
                        match code with
                        | .str s =>
                            match (run_code_in_docker env s).1 with
                            | .exn e => .exn e
                            | .ok (output, exit_code) =>
                                .ok (.success (clean_message output) exit_code)
                        | _ =>
                            -- a sized non-string reaches the runner and
                            -- raises there (textwrap.dedent/f.write on a
                            -- non-string).
                            .exn "TypeError: expected str"

/-- A string free of the line boundaries `splitlines` recognises. -/
def singleLine (s : String) : Bool :=
  s.toList.all fun c => !isLineBoundary c

-- Theorems.

/-- C1: for every (stdout, stderr, returncode) outcome with returncode 0,
`run_code_in_docker` returns the stdout with leading and trailing
whitespace trimmed together with exit code 0, and the returned value does
not depend on stderr, even when stderr is non-empty. -/
theorem C1_success_trims_stdout_and_ignores_stderr
    (code stdout stderr stderr' : String) :
    (run_code_in_docker ⟨true, none, .completed stdout stderr 0⟩ code).1
        = PyResult.ok (pyStrip stdout, 0) ∧
    (run_code_in_docker ⟨true, none, .completed stdout stderr 0⟩ code).1
        = (run_code_in_docker ⟨true, none, .completed stdout stderr' 0⟩ code).1 :=
  ⟨rfl, rfl⟩

/-- C2: when the subprocess call raises its timeout, `run_code_in_docker`
returns exit code -2 and exactly the message
"Execution timed out after 10 seconds." under the default 10-second
deadline. -/
theorem C2_timeout_fixed_message (code : String) :
    (run_code_in_docker ⟨true, none, .timedOut⟩ code).1
      = PyResult.ok ("Execution timed out after 10 seconds.", -2) := rfl

/-- C3: for every source input, staging state and subprocess behaviour,
when docker is not on PATH `run_code_in_docker` returns exactly
("Docker is not installed or not available in PATH.", -1), with no
staging directory created or removed and no execution attempted. -/
theorem C3_docker_missing_short_circuits
    (code : String) (se : Option String) (oc : SubprocessOutcome) :
    run_code_in_docker ⟨false, se, oc⟩ code
      = (PyResult.ok ("Docker is not installed or not available in PATH.", -1),
         ⟨false, false, false⟩) := rfl

/-- C4: for every non-zero returncode whose combined text (stdout, a
newline, stderr, then trimmed) contains, case-insensitively, "killed" or
"out of memory", `run_code_in_docker` returns the fixed memory-kill
sentence while preserving the original returncode — including heuristic
false positives where "killed" is ordinary program output. -/
theorem C4_oom_heuristic_overrides_message
    (code stdout stderr : String) (rc : Int) (hrc : rc ≠ 0)
    (hoom :
      strContains (pyLower (pyStrip (stdout ++ "\n" ++ stderr))) "killed" = true ∨
      strContains (pyLower (pyStrip (stdout ++ "\n" ++ stderr))) "out of memory" = true) :
    (run_code_in_docker ⟨true, none, .completed stdout stderr rc⟩ code).1
      = PyResult.ok
          ("Execution failed: container was killed due to excessive memory usage.",
           rc) := by
  rcases hoom with h | h <;>
    simp [run_code_in_docker, docker_available, hrc, h]

/-- Witness for C4, on a false-positive input where "Killed" is ordinary
program output of a run that exited 137. -/
theorem C4_oom_heuristic_overrides_message_witness :
    ((137 : Int) ≠ 0) ∧
    (run_code_in_docker
        ⟨true, none, .completed "process Killed here" "" 137⟩ "x").1
      = PyResult.ok
          ("Execution failed: container was killed due to excessive memory usage.",
           137) :=
  ⟨by decide,
   C4_oom_heuristic_overrides_message "x" "process Killed here" "" 137
     (by decide) (Or.inl (by decide))⟩

/-- C5: for every non-zero returncode whose combined output matches
neither OOM substring, `run_code_in_docker` returns exactly the string
stdout ++ "\n" ++ stderr with leading and trailing whitespace stripped,
paired with the original returncode unchanged. -/
theorem C5_nonzero_without_oom_returns_combined
    (code stdout stderr : String) (rc : Int) (hrc : rc ≠ 0)
    (hk : strContains (pyLower (pyStrip (stdout ++ "\n" ++ stderr))) "killed" = false)
    (hm : strContains (pyLower (pyStrip (stdout ++ "\n" ++ stderr))) "out of memory" = false) :
    (run_code_in_docker ⟨true, none, .completed stdout stderr rc⟩ code).1
      = PyResult.ok (pyStrip (stdout ++ "\n" ++ stderr), rc) := by
  simp [run_code_in_docker, docker_available, hrc, hk, hm]

/-- Witness for C5: a guest crash with stderr and exit code 1. -/
theorem C5_nonzero_without_oom_returns_combined_witness :
    ((1 : Int) ≠ 0) ∧
    (run_code_in_docker
        ⟨true, none, .completed "boom" "ValueError: bad" 1⟩ "x").1
      = PyResult.ok (pyStrip ("boom" ++ "\n" ++ "ValueError: bad"), 1) :=
  ⟨by decide,
   C5_nonzero_without_oom_returns_combined "x" "boom" "ValueError: bad" 1
     (by decide) (by decide) (by decide)⟩

/-- C10: a non-zero returncode with both streams empty yields the empty
string as output (the combined "\n" trims to "") together with the
original returncode, not any reclassification. -/
theorem C10_empty_streams_nonzero_returns_empty
    (code : String) (rc : Int) (hrc : rc ≠ 0) :
    (run_code_in_docker ⟨true, none, .completed "" "" rc⟩ code).1
      = PyResult.ok ("", rc) := by
  have h1 : pyStrip "\n" = "" := by decide
  have hk : strContains (pyLower "") "killed" = false := by decide
  have hm : strContains (pyLower "") "out of memory" = false := by decide
  simp [run_code_in_docker, docker_available, hrc, h1, hk, hm]

/-- Witness for C10 at returncode 2. -/
theorem C10_empty_streams_nonzero_returns_empty_witness :
    ((2 : Int) ≠ 0) ∧
    (run_code_in_docker ⟨true, none, .completed "" "" 2⟩ "x").1
      = PyResult.ok ("", 2) :=
  ⟨by decide, C10_empty_streams_nonzero_returns_empty "x" 2 (by decide)⟩

/-- Boundary-free character lists have no `\r\n` pair to collapse. -/
theorem normNewlines_eq_self (cs : List Char)
    (h : ∀ c ∈ cs, isLineBoundary c = false) :
    normNewlines cs = cs := by
  induction cs with
  | nil => rfl
  | cons c rest ih =>
      cases rest with
      | nil => rfl
      | cons c2 rest2 =>
          have hc : ¬(c = '\r' ∧ c2 = '\n') := by
            rintro ⟨h1, -⟩
            have := h c (List.mem_cons_self c (c2 :: rest2))
            rw [h1] at this
            exact absurd this (by decide)
          rw [normNewlines]
          simp only [hc, if_false]
          rw [ih (fun x hx => h x (List.mem_cons_of_mem c hx))]

/-- On a boundary-free character list, the splitlines worker emits one
line: the pending accumulator followed by the remaining characters. -/
theorem splitlinesAux_no_boundary (cs : List Char)
    (h : ∀ c ∈ cs, isLineBoundary c = false) (acc : List Char)
    (hne : acc ≠ [] ∨ cs ≠ []) :
    splitlinesAux cs acc = [String.mk (acc.reverse ++ cs)] := by
  induction cs generalizing acc with
  | nil =>
      rcases hne with h1 | h1
      · simp [splitlinesAux, h1]
      · exact absurd rfl h1
  | cons c rest ih =>
      have hc := h c (List.mem_cons_self c rest)
      rw [splitlinesAux]
      simp only [hc, if_false]
      rw [ih (fun x hx => h x (List.mem_cons_of_mem c hx)) (c :: acc)
            (Or.inl (by simp))]
      simp

/-- A nonempty string with no line boundaries splits into itself alone. -/
theorem splitlines_single_line (s : String) (hs : singleLine s = true)
    (hne : s.toList ≠ []) :
    splitlines s = [s] := by
  have hchars : ∀ c ∈ s.toList, isLineBoundary c = false := by
    intro c hc
    have := List.all_eq_true.mp hs c hc
    simpa using this
  rw [splitlines, normNewlines_eq_self s.toList hchars]
  have := splitlinesAux_no_boundary s.toList hchars [] (Or.inr hne)
  simp only [List.reverse_nil, List.nil_append] at this
  rw [this]
  cases s
  rfl

/-- `clean_message` fixes every single-line message. -/
theorem clean_message_of_single_line (s : String) (h : singleLine s = true) :
    clean_message s = s := by
  rcases hT : strContains s "Traceback" with _ | _
  · simp [clean_message, hT]
  · have hne : s.toList ≠ [] := by
      intro hnil
      rw [strContains, hnil] at hT
      exact absurd hT (by decide)
    simp [clean_message, hT, splitlines_single_line s h hne]

/-- C6: `clean_message` returns the message unchanged when it does not
contain "Traceback" and only the last line when it does; consequently it
is idempotent on every message whose shortened form is a single line. -/
theorem C6_clean_message_shortening (m : String) :
    (strContains m "Traceback" = false → clean_message m = m) ∧
    (strContains m "Traceback" = true →
        clean_message m = (splitlines m).getLastD "") ∧
    (singleLine (clean_message m) = true →
        clean_message (clean_message m) = clean_message m) :=
  ⟨fun h => by simp [clean_message, h],
   fun h => by simp [clean_message, h],
   fun h => clean_message_of_single_line _ h⟩

/-- Witness for C6: a message without the marker is unchanged, and a
three-line ZeroDivisionError trace shortens to its last line, on which a
second pass is a no-op. -/
theorem C6_clean_message_shortening_witness :
    clean_message "hi" = "hi" ∧
    strContains "Traceback (most recent call last):\n  bad\nZeroDivisionError: division by zero" "Traceback" = true ∧
    clean_message "Traceback (most recent call last):\n  bad\nZeroDivisionError: division by zero"
      = (splitlines "Traceback (most recent call last):\n  bad\nZeroDivisionError: division by zero").getLastD "" ∧
    singleLine (clean_message "Traceback (most recent call last):\n  bad\nZeroDivisionError: division by zero") = true ∧
    clean_message (clean_message "Traceback (most recent call last):\n  bad\nZeroDivisionError: division by zero")
      = clean_message "Traceback (most recent call last):\n  bad\nZeroDivisionError: division by zero" :=
  ⟨(C6_clean_message_shortening "hi").1 (by decide),
   by decide,
   (C6_clean_message_shortening _).2.1 (by decide),
   by decide,
   (C6_clean_message_shortening _).2.2 (by decide)⟩

/-- C7 counterexample: an exception raised while staging (writing the
script inside the temporary directory) is outside the try block and
escapes `run_code_in_docker` instead of becoming a return value. -/
theorem C7_staging_exception_escapes :
    (run_code_in_docker
        ⟨true, some "OSError: No space left on device",
         SubprocessOutcome.timedOut⟩ "print(1)").1
      = PyResult.exn "OSError: No space left on device" := rfl

/-- C7 (amended): whenever staging does not raise, `run_code_in_docker`
returns a normal (output, exit code) pair for every environment — the
missing runtime, a timeout, any exception from the subprocess launch and
every guest exit are all converted to return values; only an exception
raised during staging propagates to the caller. -/
theorem C7_no_exception_unless_staging_fails (env : Env) (code : String)
    (h : env.stagingExn = none) :
    ∃ p, (run_code_in_docker env code).1 = PyResult.ok p := by
  obtain ⟨d, se, oc⟩ := env
  subst h
  cases oc with
  | timedOut =>
      cases d
      · exact ⟨_, rfl⟩
      · exact ⟨_, rfl⟩
  | raised e =>
      cases d
      · exact ⟨_, rfl⟩
      · exact ⟨_, rfl⟩
  | completed o err rc =>
      cases d
      · exact ⟨_, rfl⟩
      · dsimp [run_code_in_docker, docker_available]
        split_ifs <;> exact ⟨_, rfl⟩

/-- Witness for C7 at a staging-success environment. -/
theorem C7_no_exception_unless_staging_fails_witness :
    (Env.mk true none SubprocessOutcome.timedOut).stagingExn = none ∧
    ∃ p, (run_code_in_docker ⟨true, none, SubprocessOutcome.timedOut⟩ "x").1
          = PyResult.ok p :=
  ⟨rfl, C7_no_exception_unless_staging_fails _ "x" rfl⟩

/-- The staging directory is removed exactly when it was created. -/
theorem stagingRemoved_eq_stagingCreated (env : Env) (code : String) :
    (run_code_in_docker env code).2.stagingRemoved
      = (run_code_in_docker env code).2.stagingCreated := by
  obtain ⟨d, se, oc⟩ := env
  cases d
  · rfl
  · cases se
    · cases oc with
      | timedOut => rfl
      | raised e => rfl
      | completed o err rc =>
          dsimp [run_code_in_docker, docker_available]
          split_ifs <;> rfl
    · rfl

/-- C8: on every exit path of `run_code_in_docker` — normal completion,
non-zero guest exit, timeout, caught launch exception, and even a staging
exception — a staging directory that was created is removed by return
time. -/
theorem C8_staging_cleanup_on_every_path (env : Env) (code : String)
    (h : (run_code_in_docker env code).2.stagingCreated = true) :
    (run_code_in_docker env code).2.stagingRemoved = true := by
  rw [stagingRemoved_eq_stagingCreated, h]

/-- Witness for C8 on a timed-out invocation that did stage. -/
theorem C8_staging_cleanup_on_every_path_witness :
    (run_code_in_docker ⟨true, none, SubprocessOutcome.timedOut⟩ "x").2.stagingCreated
        = true ∧
    (run_code_in_docker ⟨true, none, SubprocessOutcome.timedOut⟩ "x").2.stagingRemoved
        = true :=
  ⟨rfl, C8_staging_cleanup_on_every_path _ "x" rfl⟩

/-- C9: the handler checks only that "code" is present; with "code" bound
to a number the call len(code) raises, so `run_code` propagates an
uncaught exception and never returns a 400 client error. -/
theorem C9_non_string_code_raises_uncaught (env : Env) (n : Int) :
    run_code env (some (JsonValue.obj [("code", JsonValue.num n)]))
        = PyResult.exn "TypeError: object has no len()" ∧
    ∀ r, run_code env (some (JsonValue.obj [("code", JsonValue.num n)]))
        ≠ PyResult.ok r := by
  have h1 : run_code env (some (JsonValue.obj [("code", JsonValue.num n)]))
      = PyResult.exn "TypeError: object has no len()" := rfl
  exact ⟨h1, fun r hr => by rw [h1] at hr; exact PyResult.noConfusion hr⟩

end SandboxAPI
